import Mathlib

/-!
Shallow embedding of `src/GlobalStudentImmigration.py` (Streamlit app
"Student Migration Analytics"): the question-answering pipeline
(`initialize_database`, `retrieve_from_db`, `generate_response`,
`process_question`) and the main-script gate on `db_connected`.

External effects are modelled explicitly:
* a call to the SQLDatabaseChain (`db_chain(query)`, the Query Translator)
  is an oracle `String → Except String String` — `ok` is the returned
  `result` text, `error` is a raised exception's message;
* a call to the chat model (`llm(messages)`, the Answer Synthesizer) is an
  oracle `List Message → Except String String`;
* `os.getenv` reads an `Option String` environment value;
* the `SQLDatabase.from_uri` connection attempt is an
  `Except String Unit` outcome.

Python's `try/except Exception` blocks become `match` on those `Except`
values; a function whose Lean result type is a plain `String` therefore
provably never raises.  Calls to the two oracles are additionally recorded
in an `Event` trace so that "never invokes the Translator/Synthesizer"
claims are statements about the trace.
-/

namespace StudentMigration

/-- A chat message as built by `SystemMessage` / `HumanMessagePromptTemplate`. -/
inductive Message where
  | system (content : String)
  | human (content : String)

/-- Observable pipeline events: a `db_chain(query)` call (Query Translator,
translate + execute), an `llm(messages)` call (Answer Synthesizer), and the
terminal acknowledgment shown on an exit phrase. -/
inductive Event where
  | dbChainCall (query : String)
  | llmCall (messages : List Message)
  | terminalAck

/-- Oracle behaviour of `db_chain(query)` (line 58). -/
abbrev DbOracle := String → Except String String

/-- Oracle behaviour of `llm(messages)` (line 101). -/
abbrev LlmOracle := List Message → Except String String

/-- Python `str.lower()` (ASCII case folding; the exit phrases are ASCII). -/
def pyLower (s : String) : String := String.mk (s.data.map Char.toLower)

/-- ASCII whitespace stripped by Python `str.strip()`. -/
def isPySpace (c : Char) : Bool :=
  c == ' ' || c == '\t' || c == '\n' || c == '\r' || c == '\x0B' || c == '\x0C'

/-- Python `str.strip()`: drop leading and trailing whitespace. -/
def pyStrip (s : String) : String :=
  String.mk (((s.data.dropWhile isPySpace).reverse.dropWhile isPySpace).reverse)

/-- The fixed exit-phrase list of line 113. -/
def exit_phrases : List String := ["exit", "quit", "bye", "goodbye"]

/-- The condition of line 113: `question.lower().strip() in ["exit","quit","bye","goodbye"]`. -/
def is_exit_phrase (question : String) : Bool :=
  exit_phrases.contains (pyStrip (pyLower question))

/-- Configuration held by the `ChatOpenAI` handle built at line 30. -/
structure ChatOpenAI where
  temperature : Nat
  openai_api_key : String

/-- Configuration held by the `SQLDatabase` handle built at lines 39-43. -/
structure SQLDatabase where
  uri : String
  include_tables : List String
  sample_rows_in_table_info : Nat

/-- Configuration held by the `SQLDatabaseChain` handle built at line 45:
it closes over the `llm` and `db` handles it was built from. -/
structure SQLDatabaseChain where
  llm : ChatOpenAI
  db : SQLDatabase
  verbose : Bool

/-- The Streamlit `st.session_state` fields the pipeline touches. -/
structure SessionState where
  db_connected : Bool
  initialized : Bool
  chat_history : List (String × String)
  llm : Option ChatOpenAI
  db : Option SQLDatabase
  db_chain : Option SQLDatabaseChain

/-- Session state at the start of a fresh session: every
`if key not in st.session_state` default (lines 159-160, 262-263). -/
def initialSessionState : SessionState :=
  ⟨false, false, [], none, none, none⟩

/-- `os.getenv(name, default)`: the environment value if present, else the default. -/
def os_getenv (env : Option String) (default : String) : String :=
  match env with
  | some v => v
  | none => default

/-- `initialize_database()` (lines 21-53).  `env` is the value of the
`OPENAI_API_KEY` environment variable; `connect` is the outcome of the
external `SQLDatabase.from_uri` connection attempt (the network-touching
call inside the `try`).  Returns the `(llm, db, db_chain)` triple together
with the updated session state.  Note line 24 supplies the non-empty
default `"YOUR API KEY"`, and the early `return None, None, None` at
line 28 does not touch `db_connected`. -/
def initialize_database (env : Option String) (connect : Except String Unit)
    (s : SessionState) :
    (Option ChatOpenAI × Option SQLDatabase × Option SQLDatabaseChain) × SessionState :=
  let OPENAI_API_KEY := os_getenv env "YOUR API KEY"
  if OPENAI_API_KEY = "" then
    -- st.error("⚠️ OpenAI API key not found!"); return None, None, None
    ((none, none, none), s)
  else
    let llm : ChatOpenAI := ⟨0, OPENAI_API_KEY⟩
    let host := "localhost"
    let port := "3306"
    let username := "root"
    let database_schema := "sahasra"
    let mysql_uri :=
      "mysql+pymysql://" ++ username ++ "@" ++ host ++ ":" ++ port ++ "/" ++ database_schema
    match connect with
    | Except.error _ =>
        -- except branch (lines 50-53): st.error(...); db_connected := False
        ((none, none, none), { s with db_connected := false })
    | Except.ok _ =>
        let db : SQLDatabase := ⟨mysql_uri, ["global_student_migration"], 2⟩
        let db_chain : SQLDatabaseChain := ⟨llm, db, true⟩
        ((some llm, some db, some db_chain), { s with db_connected := true })

/-- `retrieve_from_db(query, db_chain)` (lines 55-61): run the chain and
strip the result; any exception is caught and converted to the textual
error payload.  The Lean result type `String` makes "never raises past
this boundary" a typing fact. -/
def retrieve_from_db (query : String) (db_chain : DbOracle) : String :=
  match db_chain query with
  | Except.ok res => pyStrip res
  | Except.error e => "Error retrieving data: " ++ e

/-- The fixed system persona message of lines 68-83. -/
def system_message : String :=
  "You are a student migration data expert and analyst.\n" ++
  "Your task is to answer user questions using information from a SQL database about global student migration patterns.\n" ++
  "Base your answer only on the given context and provide insights when possible.\n\n" ++
  "Guidelines:\n" ++
  "- Be conversational and helpful\n" ++
  "- Provide specific numbers when available\n" ++
  "- Offer context about trends when relevant\n" ++
  "- If data is limited, acknowledge it\n" ++
  "- Use emojis sparingly but appropriately\n\n" ++
  "Example:\n" ++
  "Input: How many students went to Canada?\n" ++
  "Context: There are 120 students in the database who went to Canada.\n" ++
  "Output: Based on the data, 120 students have migrated to Canada for higher studies. Canada continues to be a popular destination for international students!\n"

/-- The human message template of lines 85-94, instantiated. -/
def human_qry_template (human_input : String) (db_context : String) : String :=
  "Input:\n" ++ human_input ++ "\n\nContext:\n" ++ db_context ++ "\n\nOutput:\n"

/-- The two-message conversation built at lines 96-99. -/
def gen_messages (query : String) (db_context : String) : List Message :=
  [Message.system system_message, Message.human (human_qry_template query db_context)]

/-- `generate_response(query, llm, db_chain)` (lines 63-105): retrieve the
database context, build the two-message conversation, call the model; any
exception is caught and converted to the fixed apologetic string.  The
second component is the trace of external calls made. -/
def generate_response (query : String) (llm : LlmOracle) (db_chain : DbOracle) :
    String × List Event :=
  let db_context := retrieve_from_db query db_chain
  let messages := gen_messages query db_context
  match llm messages with
  | Except.ok response =>
      (response, [Event.dbChainCall query, Event.llmCall messages])
  | Except.error e =>
      ("Sorry, I encountered an error while processing your question: " ++ e,
       [Event.dbChainCall query, Event.llmCall messages])

/-- The `try` block of `process_question` (lines 127-145), in the exception
monad: generate the response and append the bot entry.  Its only possible
failure source, `generate_response`, is a total `String`-valued function,
so the block always returns `Except.ok`. -/
def process_question_body (question : String) (llm : LlmOracle) (db_chain : DbOracle)
    (chat_history : List (String × String)) :
    Except String (Bool × List (String × String) × List Event) :=
  let (response, events) := generate_response question llm db_chain
  Except.ok (true, chat_history ++ [("Bot", response)], events)

/-- `process_question(question)` (lines 108-151).  Returns the `bool`
result, the updated `chat_history`, and the trace of events.  The exit
branch (lines 113-117) shows the acknowledgment and returns `True`
without touching history; otherwise the user entry is appended, the `try`
block runs, and the `except` branch (lines 147-151) would return `False`
leaving the user entry dangling. -/
def process_question (question : String) (llm : LlmOracle) (db_chain : DbOracle)
    (chat_history : List (String × String)) :
    Bool × List (String × String) × List Event :=
  if is_exit_phrase question then
    (true, chat_history, [Event.terminalAck])
  else
    let h1 := chat_history ++ [("You", question)]
    match process_question_body question llm db_chain h1 with
    | Except.ok r => r
    | Except.error _ => (false, h1, [])

/-- Process a sequence of questions through `process_question`, threading
the chat history (how the Presentation Layer drives the pipeline, one
question fully to completion before the next). -/
def run_questions (llm : LlmOracle) (db_chain : DbOracle)
    (h : List (String × String)) : List String → List (String × String)
  | [] => h
  | q :: qs => run_questions llm db_chain (process_question q llm db_chain h).2.1 qs

/-- One user interaction driving a Streamlit rerun of the main script. -/
inductive UserAction where
  | idle
  | submit (text : String)
  | clearHistory
  | retryConnection

/-- One rerun of the main script (lines 153-411), restricted to the fields
the pipeline touches, in source order: the sidebar Clear-Chat-History
button (lines 184-188); the one-time initialization block (lines 244-259);
the `db_connected` gate with `st.stop()` and the Retry-Connection button
that sets `initialized := False` (lines 266-281); and the form submission
`if submitted and user_input: process_question(user_input)`
(lines 370-375).  Returns the new session state and the event trace of
the rerun. -/
def script_step (env : Option String) (connect : Except String Unit)
    (llm : LlmOracle) (db_chain : DbOracle)
    (action : UserAction) (s : SessionState) : SessionState × List Event :=
  let s :=
    match action with
    | UserAction.clearHistory => { s with chat_history := [] }
    | _ => s
  let s :=
    if s.initialized then s
    else
      let (handles, s1) := initialize_database env connect s
      { s1 with
          llm := handles.1, db := handles.2.1, db_chain := handles.2.2,
          initialized := true }
  if !s.db_connected then
    -- "⚠️ System Not Ready" block, ending in st.stop()
    match action with
    | UserAction.retryConnection => ({ s with initialized := false }, [])
    | _ => (s, [])
  else
    match action with
    | UserAction.submit text =>
        if text = "" then (s, [])
        else
          let r := process_question text llm db_chain s.chat_history
          ({ s with chat_history := r.2.1 }, r.2.2)
    | _ => (s, [])

/-! ### Concrete oracle behaviours used by witnesses and counterexamples -/

/-- A model call that succeeds with a fixed answer. -/
def okOracle : LlmOracle := fun _ =>
  Except.ok "Based on the data, 120 students have migrated to Canada."

/-- A database chain call that succeeds with a fixed result text. -/
def okDb : DbOracle := fun _ =>
  Except.ok "There are 120 students in the database who went to Canada."

/-- A database chain call that always raises. -/
def failDb : DbOracle := fun _ => Except.error "connection refused"

/-- A model call that always raises. -/
def failLlm : LlmOracle := fun _ => Except.error "rate limit exceeded"

/-! ### Claim theorems -/

/-- C1, counterexample: at the input "exit" the claim fails — the call
returns normally, but no Answer entry is appended: the ChatRecord is left
empty, not extended by an assistant entry. -/
theorem process_question_exit_appends_no_answer :
    (process_question "exit" okOracle okDb []).1 = true ∧
    (process_question "exit" okOracle okDb []).2.1 = [] := by
  constructor <;> rfl

/-- C1 (amended): for every Question string, `process_question` returns
normally (result `true`, no escaping exception); for every non-exit
question a well-formed Answer entry `("Bot", answer)` is appended after
the user entry, while for exit phrases the ChatRecord is left unchanged. -/
theorem process_question_no_throw_appends_answer (llm : LlmOracle) (db_chain : DbOracle)
    (h : List (String × String)) (q : String) :
    (process_question q llm db_chain h).1 = true ∧
    (process_question q llm db_chain h).2.1 =
      (if is_exit_phrase q then h
       else h ++ [("You", q), ("Bot", (generate_response q llm db_chain).1)]) := by
  by_cases hq : is_exit_phrase q
  · simp [process_question, hq]
  · simp [process_question, process_question_body, hq]

/-- Closed form of `run_questions` over an arbitrary starting history:
each non-exit question contributes its user entry followed by the
assistant entry generated for it; exit questions contribute nothing. -/
theorem run_questions_eq_append (llm : LlmOracle) (db_chain : DbOracle) (qs : List String) :
    ∀ h, run_questions llm db_chain h qs =
      h ++ (qs.filter (fun q => !is_exit_phrase q)).flatMap
        (fun q => [("You", q), ("Bot", (generate_response q llm db_chain).1)]) := by
  induction qs with
  | nil => intro h; simp [run_questions]
  | cons q qs ih =>
    intro h
    by_cases hq : is_exit_phrase q
    · simp [run_questions, process_question, hq, ih, List.filter_cons]
    · simp [run_questions, process_question, process_question_body, hq, ih, List.filter_cons]

/-- C2: processing any sequence of questions from an empty ChatRecord
yields exactly one `("You", q), ("Bot", answer q)` pair per non-exit
question, in submission order — so the record strictly alternates
user/assistant entries, starts with a user entry, ends with an assistant
entry, and each assistant entry is the response generated for the
immediately preceding user entry. -/
theorem chat_history_alternates (llm : LlmOracle) (db_chain : DbOracle) (qs : List String) :
    run_questions llm db_chain [] qs =
      (qs.filter (fun q => !is_exit_phrase q)).flatMap
        (fun q => [("You", q), ("Bot", (generate_response q llm db_chain).1)]) := by
  simpa using run_questions_eq_append llm db_chain qs []

/-- C3: on any input whose lowercased, stripped text is one of the four
exit phrases, `process_question` emits only the terminal acknowledgment —
no Translator (`dbChainCall`) or Synthesizer (`llmCall`) event — and
leaves the ChatRecord unchanged. -/
theorem process_question_exit_shortcircuit (llm : LlmOracle) (db_chain : DbOracle)
    (h : List (String × String)) (q : String) (hq : is_exit_phrase q = true) :
    process_question q llm db_chain h = (true, h, [Event.terminalAck]) := by
  simp [process_question, hq]

/-- C3 witness: the concrete input "  Bye " is an exit phrase and
short-circuits. -/
theorem process_question_exit_shortcircuit_witness :
    is_exit_phrase "  Bye " = true ∧
    process_question "  Bye " okOracle okDb [("You", "hi"), ("Bot", "hello")] =
      (true, [("You", "hi"), ("Bot", "hello")], [Event.terminalAck]) :=
  ⟨by decide, process_question_exit_shortcircuit okOracle okDb
    [("You", "hi"), ("Bot", "hello")] "  Bye " (by decide)⟩

/-- C4: whenever the chain call raises with message `e`,
`retrieve_from_db` returns (rather than raises — its result type is a
plain `String`) the error-tagged payload containing the cause. -/
theorem retrieve_from_db_error_tagged (db_chain : DbOracle) (q e : String)
    (hdb : db_chain q = Except.error e) :
    retrieve_from_db q db_chain = "Error retrieving data: " ++ e := by
  simp [retrieve_from_db, hdb]

/-- C4 witness: a chain that raises "connection refused" yields the tagged
error payload. -/
theorem retrieve_from_db_error_tagged_witness :
    failDb "How many students went to Canada?" = Except.error "connection refused" ∧
    retrieve_from_db "How many students went to Canada?" failDb =
      "Error retrieving data: connection refused" :=
  ⟨rfl, retrieve_from_db_error_tagged failDb "How many students went to Canada?"
    "connection refused" rfl⟩

/-- C5: whenever the synthesizer model call raises with message `e`,
`generate_response` returns the fixed apologetic Answer embedding the
cause instead of propagating the exception. -/
theorem generate_response_failure_apologetic (llm : LlmOracle) (db_chain : DbOracle)
    (q e : String)
    (hllm : llm (gen_messages q (retrieve_from_db q db_chain)) = Except.error e) :
    (generate_response q llm db_chain).1 =
      "Sorry, I encountered an error while processing your question: " ++ e := by
  simp [generate_response, hllm]

/-- C5 witness: a model call raising "rate limit exceeded" yields the
apologetic Answer embedding that cause. -/
theorem generate_response_failure_apologetic_witness :
    failLlm (gen_messages "Hi" (retrieve_from_db "Hi" okDb)) =
      Except.error "rate limit exceeded" ∧
    (generate_response "Hi" failLlm okDb).1 =
      "Sorry, I encountered an error while processing your question: rate limit exceeded" :=
  ⟨rfl, generate_response_failure_apologetic failLlm okDb "Hi" "rate limit exceeded" rfl⟩

/-- C9: for every non-exit question the `try` block of `process_question`
always returns `Except.ok` — `generate_response` is a total
`String`-valued function, so the `except` branch (return `False`, dangling
user entry) is unreachable and `process_question` returns `true`. -/
theorem process_question_exception_branch_unreachable (llm : LlmOracle) (db_chain : DbOracle)
    (h : List (String × String)) (q : String) (hq : is_exit_phrase q = false) :
    process_question_body q llm db_chain (h ++ [("You", q)]) =
      Except.ok (true,
        (h ++ [("You", q)]) ++ [("Bot", (generate_response q llm db_chain).1)],
        (generate_response q llm db_chain).2) ∧
    (process_question q llm db_chain h).1 = true := by
  constructor
  · rfl
  · simp [process_question, process_question_body, hq]

/-- C9 witness: a concrete non-exit question returns `true` via the
`Except.ok` branch. -/
theorem process_question_exception_branch_unreachable_witness :
    is_exit_phrase "How many students went to Canada?" = false ∧
    (process_question "How many students went to Canada?" okOracle okDb []).1 = true :=
  ⟨by decide, (process_question_exception_branch_unreachable okOracle okDb []
    "How many students went to Canada?" (by decide)).2⟩

/-- C10: for every input that is not exactly an exit phrase after
lowercasing and stripping, `process_question` runs the full pipeline — the
trace records the Translator call then the Synthesizer call — and appends
both the user entry and the assistant entry. -/
theorem process_question_non_exit_full_pipeline (llm : LlmOracle) (db_chain : DbOracle)
    (h : List (String × String)) (q : String) (hq : is_exit_phrase q = false) :
    (process_question q llm db_chain h).2.2 =
      [Event.dbChainCall q,
       Event.llmCall (gen_messages q (retrieve_from_db q db_chain))] ∧
    (process_question q llm db_chain h).2.1 =
      h ++ [("You", q), ("Bot", (generate_response q llm db_chain).1)] := by
  have hev : (generate_response q llm db_chain).2 =
      [Event.dbChainCall q,
       Event.llmCall (gen_messages q (retrieve_from_db q db_chain))] := by
    cases hl : llm (gen_messages q (retrieve_from_db q db_chain)) <;>
      simp [generate_response, hl]
  constructor
  · simp [process_question, process_question_body, hq, hev]
  · simp [process_question, process_question_body, hq]

/-- C10 witness: "exit now" is not an exit phrase; both pipeline events
fire and both entries are appended. -/
theorem process_question_non_exit_full_pipeline_witness :
    is_exit_phrase "exit now" = false ∧
    ((process_question "exit now" okOracle okDb []).2.2 =
      [Event.dbChainCall "exit now",
       Event.llmCall (gen_messages "exit now" (retrieve_from_db "exit now" okDb))] ∧
     (process_question "exit now" okOracle okDb []).2.1 =
      [("You", "exit now"),
       ("Bot", (generate_response "exit now" okOracle okDb).1)]) :=
  ⟨by decide, by
    simpa using process_question_non_exit_full_pipeline okOracle okDb [] "exit now" (by decide)⟩

/-- C6: evaluation at the failing input.  With the `OPENAI_API_KEY`
environment variable absent, `os.getenv` yields the non-empty default
`"YOUR API KEY"`, so the missing-key check of line 26 does not fire:
initialization proceeds, returns usable handles carrying the placeholder
key, and (with a reachable database) marks the session connected — it
does not fail with a ConfigError / "system not ready" outcome as the
claim requires. -/
theorem initialize_database_absent_key_not_detected :
    (initialize_database none (Except.ok ()) initialSessionState).1 =
      (some ⟨0, "YOUR API KEY"⟩,
       some ⟨"mysql+pymysql://root@localhost:3306/sahasra", ["global_student_migration"], 2⟩,
       some ⟨⟨0, "YOUR API KEY"⟩,
             ⟨"mysql+pymysql://root@localhost:3306/sahasra", ["global_student_migration"], 2⟩,
             true⟩) ∧
    (initialize_database none (Except.ok ()) initialSessionState).2.db_connected = true := by
  constructor <;> rfl

/-- C7: whenever `initialize_database` returns usable handles, the
`ChatOpenAI` handle is configured with temperature zero and the
`SQLDatabaseChain` handle closes over exactly that handle — so every
Translator call through the chain, in particular two back-to-back calls
with identical question and schema context, uses the same zero-temperature
configuration value. -/
theorem translator_temperature_zero (env : Option String) (connect : Except String Unit)
    (s : SessionState) (l : ChatOpenAI) (d : SQLDatabase) (c : SQLDatabaseChain)
    (hinit : (initialize_database env connect s).1 = (some l, some d, some c)) :
    l.temperature = 0 ∧ c.llm = l ∧ c.llm.temperature = 0 := by
  by_cases hk : os_getenv env "YOUR API KEY" = ""
  · simp [initialize_database, hk] at hinit
  · cases connect with
    | error e => simp [initialize_database, hk] at hinit
    | ok u =>
      simp [initialize_database, hk] at hinit
      obtain ⟨hl, hd, hc⟩ := hinit
      subst hl
      subst hc
      exact ⟨rfl, rfl, rfl⟩

/-- Handles produced by a successful initialization with a configured key,
used to instantiate the C7 theorem. -/
def testLlmHandle : ChatOpenAI := ⟨0, "sk-test"⟩

/-- The `SQLDatabase` handle of a successful initialization. -/
def testDbHandle : SQLDatabase :=
  ⟨"mysql+pymysql://root@localhost:3306/sahasra", ["global_student_migration"], 2⟩

/-- The `SQLDatabaseChain` handle of a successful initialization. -/
def testChainHandle : SQLDatabaseChain := ⟨testLlmHandle, testDbHandle, true⟩

/-- C7 witness: a concrete successful initialization produces a chain whose
model configuration has temperature zero. -/
theorem translator_temperature_zero_witness :
    (initialize_database (some "sk-test") (Except.ok ()) initialSessionState).1 =
      (some testLlmHandle, some testDbHandle, some testChainHandle) ∧
    (testLlmHandle.temperature = 0 ∧ testChainHandle.llm = testLlmHandle ∧
     testChainHandle.llm.temperature = 0) :=
  ⟨rfl, translator_temperature_zero (some "sk-test") (Except.ok ()) initialSessionState
    testLlmHandle testDbHandle testChainHandle rfl⟩

/-- C8: when initialization fails on the connection attempt (key present,
data source unreachable or auth rejected), the `except` branch sets
`db_connected := false`; and in any rerun starting from a session that is
initialized but not connected, the `st.stop()` gate keeps the pipeline
silent — the rerun's event trace is empty (no Translator or Synthesizer
call, for any user action including question submission), `db_connected`
stays `false`, and `initialized` stays `true` unless the user presses the
Retry-Connection button (the manual re-init trigger). -/
theorem not_ready_gate_blocks_pipeline (env : Option String) (connect : Except String Unit)
    (llm : LlmOracle) (db_chain : DbOracle) (s : SessionState) (action : UserAction)
    (e : String)
    (hkey : os_getenv env "YOUR API KEY" ≠ "") (hconnect : connect = Except.error e)
    (hdb : s.db_connected = false) (hinit : s.initialized = true) :
    ((initialize_database env connect s).2).db_connected = false ∧
    (script_step env connect llm db_chain action s).2 = [] ∧
    ((script_step env connect llm db_chain action s).1).db_connected = false ∧
    (action ≠ UserAction.retryConnection →
      ((script_step env connect llm db_chain action s).1).initialized = true) := by
  subst hconnect
  refine ⟨by simp [initialize_database, hkey], ?_⟩
  cases action <;> simp [script_step, hinit, hdb]

/-- Session state after a failed initialization: initialized, not
connected, empty history, no handles. -/
def notReadySession : SessionState := ⟨false, true, [], none, none, none⟩

/-- C8 witness: with the connection raising and a question submitted
against a not-ready session, the rerun produces no pipeline events and the
session stays disconnected and initialized. -/
theorem not_ready_gate_blocks_pipeline_witness :
    os_getenv (some "sk-test") "YOUR API KEY" ≠ "" ∧
    (((initialize_database (some "sk-test")
        (Except.error "Cannot connect to MySQL server") notReadySession).2).db_connected
          = false ∧
     (script_step (some "sk-test") (Except.error "Cannot connect to MySQL server")
        okOracle okDb (UserAction.submit "How many students went to Canada?")
        notReadySession).2 = [] ∧
     ((script_step (some "sk-test") (Except.error "Cannot connect to MySQL server")
        okOracle okDb (UserAction.submit "How many students went to Canada?")
        notReadySession).1).db_connected = false ∧
     (UserAction.submit "How many students went to Canada?" ≠ UserAction.retryConnection →
      ((script_step (some "sk-test") (Except.error "Cannot connect to MySQL server")
        okOracle okDb (UserAction.submit "How many students went to Canada?")
        notReadySession).1).initialized = true)) :=
  ⟨by decide, not_ready_gate_blocks_pipeline (some "sk-test")
    (Except.error "Cannot connect to MySQL server") okOracle okDb notReadySession
    (UserAction.submit "How many students went to Canada?")
    "Cannot connect to MySQL server" (by decide) rfl rfl rfl⟩

end StudentMigration
